import Mathlib

/-!
Verification of the voice-translation orchestration core of the
`voiceaitranslation` repository.

The embedding models the two core modules:

* `src/services/translationService.ts` — the `TranslationService.translateText`
  remote call with its fallback-on-failure policy;
* `src/hooks/useVoiceTranslation.ts` — the orchestration hook
  (`startListening`, `stopListening`, `translateAndSpeak`, `translateText`),
  modelled as functions from the environment's outcomes (speech-capture
  result, remote-translation outcome, speech-synthesis outcome) to the list
  of observable events the run emits: React state-setter calls for the three
  status flags, invocations of the capture / translator / playback services,
  the `onError` and `onTranslationComplete` callbacks, and toasts.

Status flags are recovered from an event trace by folding the setter events
over a record of the three booleans, so "observable point" means a position
in the trace.
-/

namespace VoiceAITranslation

/-- `TranslationRequest` from `translationService.ts`. -/
structure TranslationRequest where
  text : String
  fromLanguage : String
  toLanguage : String
deriving Repr, DecidableEq

/-- `TranslationResponse` from `translationService.ts`; confidence is a
rational in the model (the source uses JS numbers 0, 0.95, etc.). -/
structure TranslationResponse where
  translatedText : String
  confidence : ℚ
deriving Repr, DecidableEq

/-- Outcome of the remote Gemini call as seen by `translateText`:
the `getApiKey` helper can throw, `fetch` can reject, the response can be
non-OK, `response.json()` can throw, or the call succeeds with an optional
candidate text at `data.candidates[0].content.parts[0].text`. -/
inductive RemoteOutcome where
  | apiKeyError
  | networkError
  | httpError (status : Nat)
  | parseError
  | ok (candidate : Option String)
deriving Repr, DecidableEq

/-- Whether the remote call reached the final `return` of the `try` block. -/
def RemoteOutcome.isOk : RemoteOutcome → Bool
  | .ok _ => true
  | _ => false

/-- JS `WhiteSpace`/`LineTerminator` characters recognised by
`String.prototype.trim`: TAB, LF, VT, FF, CR, SPACE, NBSP, LS, PS, FEFF. -/
def jsWhitespace (c : Char) : Bool :=
  c.toNat = 9 || c.toNat = 10 || c.toNat = 11 || c.toNat = 12 ||
  c.toNat = 13 || c.toNat = 32 || c.toNat = 160 || c.toNat = 8232 ||
  c.toNat = 8233 || c.toNat = 65279

/-- JS `String.prototype.trim`: strip leading and trailing whitespace. -/
def jsTrim (s : String) : String :=
  ⟨((s.data.dropWhile jsWhitespace).reverse.dropWhile jsWhitespace).reverse⟩

namespace TranslationService

/-- `TranslationService.translateText` (translationService.ts lines 54-102):
on success the candidate text is trimmed and, when absent or empty, replaced
by the input text (`data.candidates?.[0]?...?.text?.trim() || text`), with
confidence hard-coded to 0.95; any thrown error is caught and degraded to
`{translatedText: text, confidence: 0}`. -/
def translateText (req : TranslationRequest) (remote : RemoteOutcome) :
    TranslationResponse :=
  match remote with
  | .ok cand =>
      let translated :=
        match cand with
        | some s => if jsTrim s = "" then req.text else jsTrim s
        | none => req.text
      { translatedText := translated, confidence := 95 / 100 }
  | _ => { translatedText := req.text, confidence := 0 }

end TranslationService

/-- `VoiceTranslationResult` from `useVoiceTranslation.ts`. -/
structure VoiceTranslationResult where
  originalText : String
  translatedText : String
  fromLanguage : String
  toLanguage : String
  confidence : ℚ
deriving Repr, DecidableEq

/-- Observable events of one hook run: React state-setter calls for the
three status flags, service invocations, callbacks, and toasts. -/
inductive Event where
  | setListening (b : Bool)
  | setTranslating (b : Bool)
  | setSpeaking (b : Bool)
  | captureStart
  | translationRequest (req : TranslationRequest)
  | synthesisStart (text language : String)
  | recognizerStop
  | errorCb (msg : String)
  | completeCb (r : VoiceTranslationResult)
  | toast (title description : String)
deriving Repr, DecidableEq

/-- Outcome of `speechService.recognizeSpeech`: either `onresult` fires and
the promise resolves with a transcript and confidence, or `onerror` fires
with a reason string and the promise rejects. -/
inductive CaptureOutcome where
  | result (text : String) (confidence : ℚ)
  | failure (reason : String)
deriving Repr, DecidableEq

/-- Outcome of `speechService.synthesizeSpeech`: the utterance either ends
normally or errors, rejecting the promise with a message. -/
inductive SynthOutcome where
  | success
  | failure (msg : String)
deriving Repr, DecidableEq

/-- `translateAndSpeak` (useVoiceTranslation.ts lines 88-138) as the event
trace of one invocation: set `isTranslating`, call the translator (which
never throws — it degrades internally), build the result with
`Math.min(speechConfidence, translationResult.confidence)`, set
`isSpeaking`, run playback; on success clear `isSpeaking`, fire the
completion callback and toast; on playback failure the catch clears both
flags and fires `onError`; the `finally` clears `isTranslating` again. -/
def translateAndSpeak (fromLanguage toLanguage text : String)
    (speechConfidence : ℚ) (remote : RemoteOutcome) (synth : SynthOutcome) :
    List Event :=
  let tr := TranslationService.translateText
    ⟨text, fromLanguage, toLanguage⟩ remote
  let result : VoiceTranslationResult :=
    { originalText := text
      translatedText := tr.translatedText
      fromLanguage := fromLanguage
      toLanguage := toLanguage
      confidence := min speechConfidence tr.confidence }
  [Event.setTranslating true,
   Event.translationRequest ⟨text, fromLanguage, toLanguage⟩,
   Event.setSpeaking true,
   Event.synthesisStart tr.translatedText toLanguage] ++
  (match synth with
   | .success =>
       [Event.setSpeaking false,
        Event.completeCb result,
        Event.toast "Translation complete"
          ("\"" ++ text ++ "\" → \"" ++ tr.translatedText ++ "\""),
        Event.setTranslating false]
   | .failure msg =>
       [Event.setTranslating false,
        Event.setSpeaking false,
        Event.errorCb msg,
        Event.toast "Translation failed" msg,
        Event.setTranslating false])

/-- The part of `startListening` after `await recognizeSpeech` settles
(useVoiceTranslation.ts lines 50-76).  On resolve: clear `isListening`,
then run `translateAndSpeak` only when the trimmed transcript is non-empty.
On reject: the error handler passed to `recognizeSpeech` fires the hook's
`onError` and clears `isListening`; the rejection then reaches the `catch`
block, which clears `isListening` again, fires `onError` again with the
same message, and toasts. -/
def captureContinuation (fromLanguage toLanguage : String)
    (capture : CaptureOutcome) (remote : RemoteOutcome)
    (synth : SynthOutcome) : List Event :=
  match capture with
  | .result text conf =>
      Event.setListening false ::
        (if jsTrim text ≠ "" then
          translateAndSpeak fromLanguage toLanguage text conf remote synth
        else [])
  | .failure reason =>
      let msg := "Speech recognition error: " ++ reason
      [Event.errorCb msg,
       Event.setListening false,
       Event.setListening false,
       Event.errorCb msg,
       Event.toast "Speech recognition failed" msg]

/-- `startListening` (useVoiceTranslation.ts lines 34-77).  When
`speechService.isSupported()` is false it only reports the error; otherwise
it sets `isListening`, starts the recognizer, and continues with
`captureContinuation`.  Note: no status flag is consulted before starting a
new capture. -/
def startListening (fromLanguage toLanguage : String) (supported : Bool)
    (capture : CaptureOutcome) (remote : RemoteOutcome)
    (synth : SynthOutcome) : List Event :=
  if supported then
    Event.setListening true :: Event.captureStart ::
      captureContinuation fromLanguage toLanguage capture remote synth
  else
    [Event.errorCb "Speech recognition is not supported in this browser",
     Event.toast "Browser not supported"
       "Speech recognition is not supported in this browser"]

/-- `stopListening` (useVoiceTranslation.ts lines 79-86): asks the
recognizer to stop and clears `isListening`.  The `AbortController` it
aborts is never consulted anywhere, so the abort has no observable effect
and is not an event. -/
def stopListening : List Event :=
  [Event.recognizerStop, Event.setListening false]

/-- A voice run in which the caller invokes `stopListening` while the
recognizer promise is pending (state `Listening`), and the recognizer then
settles: `recognition.stop()` makes the engine return a result from the
audio captured so far, so `onresult` (or `onerror`) can still fire, and the
pending continuation of `startListening` runs unguarded. -/
def voiceRunWithStop (fromLanguage toLanguage : String)
    (capture : CaptureOutcome) (remote : RemoteOutcome)
    (synth : SynthOutcome) : List Event :=
  Event.setListening true :: Event.captureStart ::
    stopListening ++
      captureContinuation fromLanguage toLanguage capture remote synth

namespace Hook

/-- The hook's `translateText` (useVoiceTranslation.ts lines 145-147): the
direct text path, `translateAndSpeak(text)` with the default
`speechConfidence = 1.0`. -/
def translateText (fromLanguage toLanguage text : String)
    (remote : RemoteOutcome) (synth : SynthOutcome) : List Event :=
  translateAndSpeak fromLanguage toLanguage text 1 remote synth

end Hook

/-- The three status flags of the hook. -/
structure HookState where
  isListening : Bool
  isTranslating : Bool
  isSpeaking : Bool
deriving Repr, DecidableEq

/-- All flags start false. -/
def initialState : HookState := ⟨false, false, false⟩

/-- `Idle`: no flag set. -/
def HookState.isIdle (s : HookState) : Bool :=
  !s.isListening && !s.isTranslating && !s.isSpeaking

/-- A state-setter event updates the corresponding flag; every other event
leaves the flags unchanged. -/
def applyEvent (s : HookState) : Event → HookState
  | .setListening b => { s with isListening := b }
  | .setTranslating b => { s with isTranslating := b }
  | .setSpeaking b => { s with isSpeaking := b }
  | _ => s

/-- Final flags after a trace. -/
def runTrace (s : HookState) (es : List Event) : HookState :=
  es.foldl applyEvent s

/-- The flags at every observable point of a trace (before, between and
after events). -/
def statesAlong (s : HookState) (es : List Event) : List HookState :=
  es.scanl applyEvent s

/-- Status-flag setter events. -/
def Event.isStatus : Event → Bool
  | .setListening _ => true
  | .setTranslating _ => true
  | .setSpeaking _ => true
  | _ => false

/-- The status transitions of a trace. -/
def statusEvents (es : List Event) : List Event :=
  es.filter Event.isStatus

/-- `onError` callback events. -/
def Event.isErrorCb : Event → Bool
  | .errorCb _ => true
  | _ => false

/-- `onTranslationComplete` callback events. -/
def Event.isCompleteCb : Event → Bool
  | .completeCb _ => true
  | _ => false

/-- How many times a trace fires `onError`. -/
def errorCbCount (es : List Event) : Nat :=
  es.countP (fun e => e.isErrorCb)

/-- How many times a trace fires `onTranslationComplete`. -/
def completeCbCount (es : List Event) : Nat :=
  es.countP (fun e => e.isCompleteCb)

/-- Erase the confidence value in completion events, keeping the shape of
the result (its other four fields) and every other event intact. -/
def eraseConfidence : Event → Event
  | .completeCb r => .completeCb { r with confidence := 0 }
  | e => e

/-- At most one of the three status flags is set. -/
def mutexFlags (s : HookState) : Bool :=
  !(s.isListening && s.isTranslating || s.isListening && s.isSpeaking ||
    s.isTranslating && s.isSpeaking)

/-- `isListening` is not set together with either of the other two flags. -/
def listeningExclusive (s : HookState) : Bool :=
  !(s.isListening && (s.isTranslating || s.isSpeaking))

/-- C5 counterexample: a transport-level success whose response carries no
candidate text makes `translateText` return the original text with the
fixed success confidence 0.95 — not with zero confidence as claimed. -/
theorem C5_counterexample :
    TranslationService.translateText ⟨"Hello", "en", "es"⟩ (.ok none)
        = ⟨"Hello", 95 / 100⟩
    ∧ ((95 : ℚ) / 100) ≠ 0 := by
  constructor
  · simp [TranslationService.translateText]
  · norm_num

/-- C5 amended: when the remote call succeeds at the transport level but
returns nothing usable (no candidate text, or a candidate that is blank
after trimming), `translateText` returns the original text — with the
fixed success confidence 0.95, not zero. -/
theorem C5_no_usable_candidate (req : TranslationRequest)
    (cand : Option String) (h : ∀ s, cand = some s → jsTrim s = "") :
    TranslationService.translateText req (.ok cand)
      = ⟨req.text, 95 / 100⟩ := by
  cases cand with
  | none => simp [TranslationService.translateText]
  | some s => simp [TranslationService.translateText, h s rfl]

/-- C5 witness: the amended theorem at a concrete blank candidate. -/
theorem C5_witness :
    TranslationService.translateText ⟨"Bonjour", "fr", "en"⟩ (.ok (some "  "))
      = ⟨"Bonjour", 95 / 100⟩ :=
  C5_no_usable_candidate ⟨"Bonjour", "fr", "en"⟩ (some "  ")
    (fun s hs => by cases hs; decide)

/-- C10: the translator's returned confidence is exactly one of the two
constants — 0.95 on every transport-level success regardless of response
content, 0 on every failure — never derived from the response; and on the
direct text path (default capture confidence 1.0) every completion result
carries exactly the translator's constant. -/
theorem C10_confidence_constants :
    (∀ req remote,
      (TranslationService.translateText req remote).confidence
        = if remote.isOk then 95 / 100 else 0)
    ∧ (∀ f t text remote synth r,
        Event.completeCb r ∈ Hook.translateText f t text remote synth →
        r.confidence
          = (TranslationService.translateText ⟨text, f, t⟩ remote).confidence) := by
  constructor
  · intro req remote
    cases remote <;>
      simp [TranslationService.translateText, RemoteOutcome.isOk]
  · intro f t text remote synth r h
    cases synth with
    | success =>
        simp [Hook.translateText, translateAndSpeak] at h
        subst h
        cases remote <;>
          norm_num [TranslationService.translateText, min_def]
    | failure m => simp [Hook.translateText, translateAndSpeak] at h

/-- C10 witness: the two parts of the theorem at concrete inputs: a failing
remote call on the direct text path. -/
theorem C10_witness :
    (TranslationService.translateText ⟨"Hi", "en", "es"⟩ .networkError).confidence
      = (if RemoteOutcome.networkError.isOk then (95 : ℚ) / 100 else 0)
    ∧ (⟨"Hi", "Hi", "en", "es", min 1 0⟩ : VoiceTranslationResult).confidence
      = (TranslationService.translateText ⟨"Hi", "en", "es"⟩ .networkError).confidence :=
  ⟨C10_confidence_constants.1 ⟨"Hi", "en", "es"⟩ .networkError,
   C10_confidence_constants.2 "en" "es" "Hi" .networkError .success
     ⟨"Hi", "Hi", "en", "es", min 1 0⟩
     (by simp [Hook.translateText, translateAndSpeak,
               TranslationService.translateText])⟩

/-- C3: on any remote failure (API-key error, network rejection, non-OK
HTTP status, parse failure) `translateText` returns the original text with
zero confidence; `translateAndSpeak` still reaches the Speaking stage
(`setIsSpeaking(true)` and the playback call occur); and when playback
succeeds the run fires no `onError` callback at all, so the translation
failure never reaches the error callback. -/
theorem C3_translation_failure_degrades (text f t : String) (conf : ℚ)
    (remote : RemoteOutcome) (synth : SynthOutcome)
    (h : remote.isOk = false) :
    TranslationService.translateText ⟨text, f, t⟩ remote = ⟨text, 0⟩
    ∧ Event.setSpeaking true ∈ translateAndSpeak f t text conf remote synth
    ∧ errorCbCount (translateAndSpeak f t text conf remote .success) = 0 := by
  refine ⟨?_, ?_, ?_⟩
  · cases remote <;> simp_all [TranslationService.translateText,
      RemoteOutcome.isOk]
  · cases synth <;> simp [translateAndSpeak]
  · simp [translateAndSpeak, errorCbCount, Event.isErrorCb]

/-- C3 witness: the theorem at a concrete network failure. -/
theorem C3_witness :
    TranslationService.translateText ⟨"Hello", "en", "es"⟩ .networkError
        = ⟨"Hello", 0⟩
    ∧ Event.setSpeaking true
        ∈ translateAndSpeak "en" "es" "Hello" (9 / 10) .networkError .success
    ∧ errorCbCount
        (translateAndSpeak "en" "es" "Hello" (9 / 10) .networkError .success)
        = 0 :=
  C3_translation_failure_degrades "Hello" "en" "es" (9 / 10)
    .networkError .success rfl

/-- C4: every result delivered to the completion callback of a voice run
carries confidence equal to `min(captureConfidence, translationConfidence)`;
the value handed to the callback is exactly the one built in
`translateAndSpeak`, never recomputed downstream. -/
theorem C4_final_confidence_is_min (f t text : String) (conf : ℚ)
    (remote : RemoteOutcome) (synth : SynthOutcome)
    (r : VoiceTranslationResult)
    (h : Event.completeCb r
      ∈ startListening f t true (.result text conf) remote synth) :
    r.confidence
      = min conf
          (TranslationService.translateText ⟨text, f, t⟩ remote).confidence := by
  by_cases htrim : jsTrim text = ""
  · simp [startListening, captureContinuation, htrim] at h
  · cases synth with
    | success =>
        simp [startListening, captureContinuation, translateAndSpeak,
          htrim] at h
        subst h
        rfl
    | failure m =>
        simp [startListening, captureContinuation, translateAndSpeak,
          htrim] at h

/-- C4 witness: the theorem at the spec's own scenario — capture "Hello" at
0.9, remote success "Hola" at constant 0.95. -/
theorem C4_witness :
    (⟨"Hello", "Hola", "en", "es",
        min (9 / 10) (95 / 100)⟩ : VoiceTranslationResult).confidence
      = min (9 / 10)
          (TranslationService.translateText ⟨"Hello", "en", "es"⟩
            (.ok (some "Hola"))).confidence :=
  C4_final_confidence_is_min "en" "es" "Hello" (9 / 10) (.ok (some "Hola"))
    .success ⟨"Hello", "Hola", "en", "es", min (9 / 10) (95 / 100)⟩
    (by simp [startListening, captureContinuation, translateAndSpeak,
          TranslationService.translateText,
          show jsTrim "Hola" = "Hola" from by decide,
          show jsTrim "Hello" = "Hello" from by decide])

/-- C7: a run whose capture succeeds with a transcript that is empty (or
whitespace-only, so that it trims to empty) emits exactly the Listening
transitions and returns to Idle: no translator request, no playback, no
completion callback. -/
theorem C7_blank_transcript (f t text : String) (conf : ℚ)
    (remote : RemoteOutcome) (synth : SynthOutcome)
    (h : jsTrim text = "") :
    startListening f t true (.result text conf) remote synth
        = [Event.setListening true, Event.captureStart,
           Event.setListening false]
    ∧ runTrace initialState
        (startListening f t true (.result text conf) remote synth)
        = initialState
    ∧ (∀ req, Event.translationRequest req
        ∉ startListening f t true (.result text conf) remote synth)
    ∧ (∀ a b, Event.synthesisStart a b
        ∉ startListening f t true (.result text conf) remote synth)
    ∧ completeCbCount
        (startListening f t true (.result text conf) remote synth) = 0 := by
  refine ⟨?_, ?_, ?_, ?_, ?_⟩ <;>
    simp [startListening, captureContinuation, h, runTrace, applyEvent,
      initialState, completeCbCount, Event.isCompleteCb]

/-- C7 witness: the theorem at a concrete whitespace transcript. -/
theorem C7_witness :
    startListening "en" "es" true (.result "  " (9 / 10)) (.ok none) .success
      = [Event.setListening true, Event.captureStart,
         Event.setListening false] :=
  (C7_blank_transcript "en" "es" "  " (9 / 10) (.ok none) .success
    (by decide)).1

/-- C6 counterexample: when capture fails (e.g. permission denied), the
`onError` callback fires twice — once from the error handler passed to
`recognizeSpeech` and once from the `catch` block — not exactly once as
claimed. -/
theorem C6_counterexample :
    errorCbCount
        (startListening "en" "es" true (.failure "not-allowed") (.ok none)
          .success) = 2
    ∧ (2 : Nat) ≠ 1 := by
  decide

/-- C6 amended: when capture fails, the flags return to Idle and the
completion callback never fires, but the `onError` callback fires exactly
twice, both times with the same descriptive reason string. -/
theorem C6_capture_failure (f t reason : String) (remote : RemoteOutcome)
    (synth : SynthOutcome) :
    runTrace initialState
        (startListening f t true (.failure reason) remote synth)
        = initialState
    ∧ completeCbCount
        (startListening f t true (.failure reason) remote synth) = 0
    ∧ (startListening f t true (.failure reason) remote synth).filter
        (fun e => e.isErrorCb)
        = [Event.errorCb ("Speech recognition error: " ++ reason),
           Event.errorCb ("Speech recognition error: " ++ reason)] := by
  refine ⟨?_, ?_, ?_⟩ <;>
    simp [startListening, captureContinuation, runTrace, applyEvent,
      initialState, completeCbCount, Event.isCompleteCb, Event.isErrorCb,
      List.filter]

/-- C1 counterexample: with the hook in a non-Idle state (isTranslating
set) and speech supported, `startListening` still has observable effects —
it starts a new capture and flips `isListening`, reaching a state with two
flags set. -/
theorem C1_counterexample :
    (⟨false, true, false⟩ : HookState).isIdle = false
    ∧ Event.captureStart
        ∈ startListening "en" "es" true (.result "Hello" (9 / 10))
            (.ok (some "Hola")) .success
    ∧ (statesAlong ⟨false, true, false⟩
          (startListening "en" "es" true (.result "Hello" (9 / 10))
            (.ok (some "Hola")) .success)).contains
        ⟨true, true, false⟩ = true := by
  decide

/-- C1 amended: `startListening` consults no status flag — whenever speech
is supported its first observable action sets `isListening` to true and it
always starts a new capture, whatever the current state; only the
unsupported-browser check makes the call a no-op on the flags. -/
theorem C1_no_state_guard (f t : String) (capture : CaptureOutcome)
    (remote : RemoteOutcome) (synth : SynthOutcome) (s : HookState) :
    (startListening f t true capture remote synth).head?
        = some (Event.setListening true)
    ∧ Event.captureStart ∈ startListening f t true capture remote synth
    ∧ (statesAlong s (startListening f t true capture remote synth)).get? 1
        = some { s with isListening := true } := by
  refine ⟨?_, ?_, ?_⟩ <;>
    simp [startListening, statesAlong, List.scanl_cons, applyEvent]

/-- C2 counterexample: in a concrete successful run from Idle, the flags
pass through a state where `isTranslating` and `isSpeaking` are both true
(playback is in flight while the `finally` block has not yet cleared
`isTranslating`), so the three flags are not mutually exclusive. -/
theorem C2_counterexample :
    ((statesAlong initialState
        (startListening "en" "es" true (.result "Hello" (9 / 10))
          (.ok (some "Hola")) .success)).all mutexFlags) = false
    ∧ (statesAlong initialState
        (startListening "en" "es" true (.result "Hello" (9 / 10))
          (.ok (some "Hola")) .success)).contains
        ⟨false, true, true⟩ = true := by
  decide

/-- C2 amended: along every voice run from Idle, `isListening` is never
true together with another flag; the only mutual-exclusion violation is
`isTranslating ∧ isSpeaking` during the playback stage. -/
theorem C2_listening_exclusive (f t : String) (capture : CaptureOutcome)
    (remote : RemoteOutcome) (synth : SynthOutcome) :
    ((statesAlong initialState
        (startListening f t true capture remote synth)).all
      listeningExclusive) = true := by
  cases capture with
  | result text conf =>
      by_cases htrim : jsTrim text = ""
      · simp [startListening, captureContinuation, htrim, statesAlong,
          List.scanl_cons, applyEvent, initialState, listeningExclusive]
      · cases synth <;>
          simp [startListening, captureContinuation, translateAndSpeak,
            htrim, statesAlong, List.scanl_cons, applyEvent, initialState,
            listeningExclusive]
  | failure reason =>
      simp [startListening, captureContinuation, statesAlong,
        List.scanl_cons, applyEvent, initialState, listeningExclusive]

/-- C8: the code evaluated at the failing input — `stopListening` during
Listening does return the flags to Idle, but the aborted AbortController
is never consulted, so when the stopped recognizer still returns the
transcript captured so far, the pending continuation runs the full
pipeline and the completion callback fires for that run. -/
theorem C8_stop_does_not_cancel :
    (runTrace initialState
        (Event.setListening true :: Event.captureStart :: stopListening)).isIdle
        = true
    ∧ completeCbCount
        (voiceRunWithStop "en" "es" (.result "Hello" (9 / 10))
          (.ok (some "Hola")) .success) = 1 := by
  decide

/-- C9: the direct text path is `translateAndSpeak` with default capture
confidence 1.0; after a successful non-blank capture the voice run is the
Listening-stage events followed by the same `translateAndSpeak`; both
paths emit identical status transitions, and their full traces agree
event-for-event once the confidence value inside the completion result is
erased — the result shape and every other field coincide. -/
theorem C9_direct_path_matches_voice_path (f t text : String) (conf : ℚ)
    (remote : RemoteOutcome) (synth : SynthOutcome)
    (h : jsTrim text ≠ "") :
    startListening f t true (.result text conf) remote synth
        = Event.setListening true :: Event.captureStart ::
            Event.setListening false ::
              translateAndSpeak f t text conf remote synth
    ∧ Hook.translateText f t text remote synth
        = translateAndSpeak f t text 1 remote synth
    ∧ statusEvents (Hook.translateText f t text remote synth)
        = statusEvents (translateAndSpeak f t text conf remote synth)
    ∧ (Hook.translateText f t text remote synth).map eraseConfidence
        = (translateAndSpeak f t text conf remote synth).map
            eraseConfidence := by
  refine ⟨by simp [startListening, captureContinuation, h], rfl, ?_, ?_⟩ <;>
    cases synth <;>
      simp [Hook.translateText, translateAndSpeak, statusEvents,
        Event.isStatus, eraseConfidence]

/-- C9 witness: identical status transitions of the two paths at a concrete
input. -/
theorem C9_witness :
    statusEvents
        (Hook.translateText "en" "es" "Bonjour" (.ok (some "Hola")) .success)
      = statusEvents
          (translateAndSpeak "en" "es" "Bonjour" (9 / 10) (.ok (some "Hola"))
            .success) :=
  (C9_direct_path_matches_voice_path "en" "es" "Bonjour" (9 / 10)
    (.ok (some "Hola")) .success (by decide)).2.2.1

end VoiceAITranslation
